import Mathlib

/-!
Shallow embedding of `src/src/input.rs` (the Steam Input wrapper of the
steamworks crate).  The wrapper forwards every call to the native
`ISteamInput` interface; we model each native entry point as an explicit
oracle (a structure field or a function argument), and model the Rust-side
marshalling — buffer initialisation, `assert!`, `CString::new`,
`CStr::to_string_lossy`, `Vec::shrink_to` / `Vec::set_len` — faithfully.
Panics are modelled as `Option.none`; machine integers carry no arithmetic
here, so handles and ids are `Nat` / `Int`.
-/

namespace SteamworksInput

/-- Modelled from the spec: the fixed maximum device count
`sys::STEAM_INPUT_MAX_COUNT` lives in the `steamworks-sys` crate (not under
`src/`); its value in the Steamworks SDK headers is 16. -/
def STEAM_INPUT_MAX_COUNT : Nat := 16

/-- Modelled from the spec: the fixed maximum-origins constant
`sys::STEAM_INPUT_MAX_ORIGINS` lives in the `steamworks-sys` crate (not under
`src/`); its value in the Steamworks SDK headers is 8. -/
def STEAM_INPUT_MAX_ORIGINS : Nat := 8

/-- Modelled from the spec: the native device-type enumeration
`sys::ESteamInputType` of the `steamworks-sys` crate (not under `src/`).
The variant set is the closed set the spec lists (the known device kinds
matched in `get_input_type_for_handle`) together with the native
`Unknown` value and the two non-device bookkeeping values `Count` and
`MaximumPossibleValue` of the SDK enum. -/
inductive ESteamInputType where
  | k_ESteamInputType_Unknown
  | k_ESteamInputType_SteamController
  | k_ESteamInputType_XBox360Controller
  | k_ESteamInputType_XBoxOneController
  | k_ESteamInputType_GenericGamepad
  | k_ESteamInputType_PS4Controller
  | k_ESteamInputType_AppleMFiController
  | k_ESteamInputType_AndroidController
  | k_ESteamInputType_SwitchJoyConPair
  | k_ESteamInputType_SwitchJoyConSingle
  | k_ESteamInputType_SwitchProController
  | k_ESteamInputType_MobileTouch
  | k_ESteamInputType_PS3Controller
  | k_ESteamInputType_PS5Controller
  | k_ESteamInputType_SteamDeckController
  | k_ESteamInputType_Count
  | k_ESteamInputType_MaximumPossibleValue
deriving DecidableEq

/-- The wrapper's controller-type enum (`pub enum InputType`,
`src/src/input.rs` lines 12-29). -/
inductive InputType where
  | Unknown
  | SteamController
  | XBox360Controller
  | XBoxOneController
  | GenericGamepad
  | PS4Controller
  | AppleMFiController
  | AndroidController
  | SwitchJoyConPair
  | SwitchJoyConSingle
  | SwitchProController
  | MobileTouch
  | PS3Controller
  | PS5Controller
  | SteamDeckController
deriving DecidableEq

/-- `Input::get_input_type_for_handle` (`src/src/input.rs` lines 102-137):
the native call returns an `ESteamInputType` (modelled here as the oracle
argument `input_type`); the wrapper matches it arm by arm, with a `_`
catch-all mapping everything else to `InputType::Unknown`. -/
def get_input_type_for_handle (input_type : ESteamInputType) : InputType :=
  match input_type with
  | .k_ESteamInputType_SteamController => InputType.SteamController
  | .k_ESteamInputType_GenericGamepad => InputType.GenericGamepad
  | .k_ESteamInputType_PS4Controller => InputType.PS4Controller
  | .k_ESteamInputType_SwitchJoyConPair => InputType.SwitchJoyConPair
  | .k_ESteamInputType_MobileTouch => InputType.MobileTouch
  | .k_ESteamInputType_PS3Controller => InputType.PS3Controller
  | .k_ESteamInputType_PS5Controller => InputType.PS5Controller
  | .k_ESteamInputType_XBox360Controller => InputType.XBox360Controller
  | .k_ESteamInputType_XBoxOneController => InputType.XBoxOneController
  | .k_ESteamInputType_AppleMFiController => InputType.AppleMFiController
  | .k_ESteamInputType_AndroidController => InputType.AndroidController
  | .k_ESteamInputType_SwitchJoyConSingle => InputType.SwitchJoyConSingle
  | .k_ESteamInputType_SwitchProController => InputType.SwitchProController
  | .k_ESteamInputType_SteamDeckController => InputType.SteamDeckController
  | _ => InputType.Unknown

/-- Oracle for the native `SteamAPI_ISteamInput_GetConnectedControllers`
call: `handles` is the list of device handles the native call writes into
the start of the caller's buffer; the native call's return value is their
count, `handles.length`.  The native contract bounds the count by
`STEAM_INPUT_MAX_COUNT`; theorems carry that as a hypothesis. -/
structure NativeControllers where
  handles : List Nat

/-- Effect of the native `GetConnectedControllers` call on a buffer: the
first `handles.length` slots are overwritten with the connected handles,
the rest of the buffer is untouched; the returned value is the count. -/
def nativeGetConnectedControllers (native : NativeControllers) (buf : List Nat) :
    Nat × List Nat :=
  (native.handles.length, native.handles ++ buf.drop native.handles.length)

/-- `Input::get_connected_controllers_slice` (`src/src/input.rs` lines
65-77): `assert!(handles.len() >= sys::STEAM_INPUT_MAX_COUNT as usize)`
(modelled as `none`, the panic) and then the native call.  The result pair
is (count returned, buffer after the call). -/
def get_connected_controllers_slice (native : NativeControllers) (buf : List Nat) :
    Option (Nat × List Nat) :=
  if STEAM_INPUT_MAX_COUNT ≤ buf.length then
    some (nativeGetConnectedControllers native buf)
  else
    none

/-- Model of Rust `Vec::shrink_to(min_capacity)`: it shrinks the vector's
*capacity* with a lower bound and never changes the vector's length or
contents, so on the value level it is the identity. -/
def vecShrinkTo (v : List Nat) (_minCapacity : Nat) : List Nat := v

/-- `Input::get_connected_controllers` (`src/src/input.rs` lines 57-62):
`vec![0_u64; STEAM_INPUT_MAX_COUNT]`, the slice call (its assert cannot
fire: the buffer has exactly the required length), then
`handles.shrink_to(quantity)` and return of `handles`.  The `none` branch
is unreachable. -/
def get_connected_controllers (native : NativeControllers) : List Nat :=
  match get_connected_controllers_slice native (List.replicate STEAM_INPUT_MAX_COUNT 0) with
  | some (quantity, handles) => vecShrinkTo handles quantity
  | none => []

/-- Model of Rust `std::ffi::CString::new` on the byte content of a `&str`:
it returns an error when the supplied bytes contain a nul byte anywhere,
and otherwise the bytes with a terminating nul appended.  The wrapper
always calls `.unwrap()` on the result, so the error is a panic (`none`). -/
def CString.new (s : List Nat) : Option (List Nat) :=
  if 0 ∈ s then none else some (s ++ [0])

/-- `Input::set_input_action_manifest_file_path` (`src/src/input.rs` lines
88-93): `CString::new(path).unwrap()`, then the native
`SetInputActionManifestFilePath` call (oracle `native`, taking the
nul-terminated bytes) whose `bool` result is returned. -/
def set_input_action_manifest_file_path (native : List Nat → Bool)
    (path : List Nat) : Option Bool :=
  (CString.new path).map native

/-- `Input::get_action_set_handle` (`src/src/input.rs` lines 96-99):
`CString::new(action_set_name).unwrap()`, then the native
`GetActionSetHandle` call (oracle `native`) returning a handle. -/
def get_action_set_handle (native : List Nat → Nat)
    (action_set_name : List Nat) : Option Nat :=
  (CString.new action_set_name).map native

/-- `Input::get_digital_action_handle` (`src/src/input.rs` lines 207-210):
`CString::new(action_name).unwrap()`, then the native
`GetDigitalActionHandle` call (oracle `native`) returning a handle. -/
def get_digital_action_handle (native : List Nat → Nat)
    (action_name : List Nat) : Option Nat :=
  (CString.new action_name).map native

/-- `Input::get_analog_action_handle` (`src/src/input.rs` lines 213-216):
`CString::new(action_name).unwrap()`, then the native
`GetAnalogActionHandle` call (oracle `native`) returning a handle. -/
def get_analog_action_handle (native : List Nat → Nat)
    (action_name : List Nat) : Option Nat :=
  (CString.new action_name).map native

/-- A UTF-8 continuation byte: `0x80..=0xBF`. -/
def isCont (b : Nat) : Bool := 0x80 ≤ b && b ≤ 0xBF

/-- Validity of the first continuation byte of a 3-byte sequence, which
depends on the leading byte (excludes overlong encodings for `0xE0` and
surrogate code points for `0xED`). -/
def isCont3 (b0 b1 : Nat) : Bool :=
  if b0 = 0xE0 then 0xA0 ≤ b1 && b1 ≤ 0xBF
  else if b0 = 0xED then 0x80 ≤ b1 && b1 ≤ 0x9F
  else isCont b1

/-- Validity of the first continuation byte of a 4-byte sequence, which
depends on the leading byte (excludes overlong encodings for `0xF0` and
code points above `U+10FFFF` for `0xF4`). -/
def isCont4 (b0 b1 : Nat) : Bool :=
  if b0 = 0xF0 then 0x90 ≤ b1 && b1 ≤ 0xBF
  else if b0 = 0xF4 then 0x80 ≤ b1 && b1 ≤ 0x8F
  else isCont b1

/-- Decode one UTF-8 scalar value at the head of a byte list: `some
(codepoint, length)` when the head starts a well-formed sequence, `none`
otherwise (invalid leading byte, invalid continuation, or truncation). -/
def utf8DecodeStep : List Nat → Option (Nat × Nat)
  | [] => none
  | b0 :: rest =>
    if b0 ≤ 0x7F then some (b0, 1)
    else if 0xC2 ≤ b0 && b0 ≤ 0xDF then
      match rest with
      | b1 :: _ =>
        if isCont b1 then some ((b0 - 0xC0) * 0x40 + (b1 - 0x80), 2) else none
      | [] => none
    else if 0xE0 ≤ b0 && b0 ≤ 0xEF then
      match rest with
      | b1 :: b2 :: _ =>
        if isCont3 b0 b1 && isCont b2 then
          some (((b0 - 0xE0) * 0x40 + (b1 - 0x80)) * 0x40 + (b2 - 0x80), 3)
        else none
      | _ => none
    else if 0xF0 ≤ b0 && b0 ≤ 0xF4 then
      match rest with
      | b1 :: b2 :: b3 :: _ =>
        if isCont4 b0 b1 && isCont b2 && isCont b3 then
          some ((((b0 - 0xF0) * 0x40 + (b1 - 0x80)) * 0x40 + (b2 - 0x80)) * 0x40
            + (b3 - 0x80), 4)
        else none
      | _ => none
    else none

/-- How many bytes Rust's lossy decoding skips (replacing them by one
replacement character) when `utf8DecodeStep` fails at the head: the length
of the maximal valid prefix of a sequence, at least 1. -/
def utf8ErrLen : List Nat → Nat
  | [] => 1
  | b0 :: rest =>
    if 0xE0 ≤ b0 && b0 ≤ 0xEF then
      match rest with
      | b1 :: _ => if isCont3 b0 b1 then 2 else 1
      | [] => 1
    else if 0xF0 ≤ b0 && b0 ≤ 0xF4 then
      match rest with
      | b1 :: b2 :: _ =>
        if isCont4 b0 b1 then (if isCont b2 then 3 else 2) else 1
      | [b1] => if isCont4 b0 b1 then 2 else 1
      | [] => 1
    else 1

/-- Strict UTF-8 decoding with explicit fuel (each step consumes at least
one byte, so fuel `l.length` suffices): `some` list of decoded characters
on well-formed input, `none` on any malformed input. -/
def utf8DecodeAux : Nat → List Nat → Option (List Char)
  | _, [] => some []
  | 0, _ :: _ => none
  | fuel + 1, b :: bs =>
    match utf8DecodeStep (b :: bs) with
    | some (c, n) => (utf8DecodeAux fuel ((b :: bs).drop n)).map (Char.ofNat c :: ·)
    | none => none

/-- Strict UTF-8 decoding of a byte list. -/
def utf8Decode (l : List Nat) : Option (List Char) := utf8DecodeAux l.length l

/-- The Unicode replacement character `U+FFFD`. -/
def replacementChar : Char := '�'

/-- Lossy UTF-8 decoding with fuel, the model of Rust
`String::from_utf8_lossy`: well-formed sequences decode to their scalar
value; each maximal malformed subpart is replaced by `replacementChar`. -/
def lossyDecodeAux : Nat → List Nat → List Char
  | _, [] => []
  | 0, _ :: _ => []
  | fuel + 1, b :: bs =>
    match utf8DecodeStep (b :: bs) with
    | some (c, n) => Char.ofNat c :: lossyDecodeAux fuel ((b :: bs).drop n)
    | none => replacementChar :: lossyDecodeAux fuel ((b :: bs).drop (utf8ErrLen (b :: bs)))

/-- Model of Rust `CStr::to_string_lossy().into_owned()` on the byte
content of the C string (the bytes before the terminating nul). -/
def toStringLossy (l : List Nat) : String := String.mk (lossyDecodeAux l.length l)

/-- `Input::get_glyph_for_action_origin` (`src/src/input.rs` lines
140-147): the native `GetGlyphForActionOrigin_Legacy` call returns a C
string (oracle `native`, giving its bytes for each origin);
`CStr::from_ptr` + `to_string_lossy().into_owned()` produce the owned
string. -/
def get_glyph_for_action_origin (native : Nat → List Nat)
    (action_origin : Nat) : String :=
  toStringLossy (native action_origin)

/-- `Input::get_string_for_action_origin` (`src/src/input.rs` lines
150-157): the native `GetStringForActionOrigin` call returns a C string
(oracle `native`); `CStr::from_ptr` + `to_string_lossy().into_owned()`
produce the owned string. -/
def get_string_for_action_origin (native : Nat → List Nat)
    (action_origin : Nat) : String :=
  toStringLossy (native action_origin)

/-- Oracle for the native `GetDigitalActionOrigins` /
`GetAnalogActionOrigins` calls: `origins` is the list of origin values the
native call writes into the start of the caller's buffer; the call's
return value is their count, `origins.length`.  The native contract bounds
the count by `STEAM_INPUT_MAX_ORIGINS`; theorems carry that as a
hypothesis. -/
structure NativeOrigins where
  origins : List Nat

/-- `Vec::with_capacity cap` as raw storage: `cap` uninitialised slots. -/
def vecWithCapacity (cap : Nat) : List (Option Nat) := List.replicate cap none

/-- The native origins call writing `vals` into the start of raw storage
`buf` (slots beyond the written prefix keep their previous contents). -/
def nativeWriteOrigins (buf : List (Option Nat)) (vals : List Nat) :
    List (Option Nat) :=
  vals.map some ++ buf.drop vals.length

/-- `Vec::set_len len` on raw storage: the vector now exposes exactly the
first `len` slots. -/
def vecSetLen (buf : List (Option Nat)) (len : Nat) : List (Option Nat) :=
  buf.take len

/-- `Input::get_digital_action_origins` (`src/src/input.rs` lines
241-259): `Vec::with_capacity(STEAM_INPUT_MAX_ORIGINS)`, the native
`GetDigitalActionOrigins` call writing into the spare capacity and
returning the count, then `set_len(len)`.  Slots are `Option Nat`
(`none` = uninitialised). -/
def get_digital_action_origins (native : NativeOrigins) : List (Option Nat) :=
  vecSetLen (nativeWriteOrigins (vecWithCapacity STEAM_INPUT_MAX_ORIGINS) native.origins)
    native.origins.length

/-- `Input::get_analog_action_origins` (`src/src/input.rs` lines 262-280):
identical shape to the digital variant, forwarding to the native
`GetAnalogActionOrigins` call. -/
def get_analog_action_origins (native : NativeOrigins) : List (Option Nat) :=
  vecSetLen (nativeWriteOrigins (vecWithCapacity STEAM_INPUT_MAX_ORIGINS) native.origins)
    native.origins.length

/-- `const CALLBACK_BASE_ID: i32 = 2800` (`src/src/input.rs` line 303). -/
def CALLBACK_BASE_ID : Int := 2800

/-- Native record `sys::SteamInputDeviceConnected_t`: its one field, the
`u64` device handle, is named in the `from_raw` destructuring in
`src/src/input.rs` line 317. -/
structure SteamInputDeviceConnected_t where
  m_ulConnectedDeviceHandle : Nat

/-- `pub struct DeviceConnected` (`src/src/input.rs` lines 307-309). -/
structure DeviceConnected where
  handle : Nat
deriving DecidableEq

/-- `DeviceConnected::ID = CALLBACK_BASE_ID + 1` (`src/src/input.rs` line 312). -/
def DeviceConnected.ID : Int := CALLBACK_BASE_ID + 1

/-- `DeviceConnected::from_raw` (`src/src/input.rs` lines 314-319): reads
the raw buffer as a `SteamInputDeviceConnected_t` and copies the handle
field. -/
def DeviceConnected.from_raw (raw : SteamInputDeviceConnected_t) : DeviceConnected :=
  { handle := raw.m_ulConnectedDeviceHandle }

/-- Native record `sys::SteamInputDeviceDisconnected_t`: its one field,
the `u64` device handle, is named in the `from_raw` destructuring in
`src/src/input.rs` line 334. -/
structure SteamInputDeviceDisconnected_t where
  m_ulDisconnectedDeviceHandle : Nat

/-- `pub struct DeviceDisconnected` (`src/src/input.rs` lines 324-326). -/
structure DeviceDisconnected where
  handle : Nat
deriving DecidableEq

/-- `DeviceDisconnected::ID = CALLBACK_BASE_ID + 2` (`src/src/input.rs` line 329). -/
def DeviceDisconnected.ID : Int := CALLBACK_BASE_ID + 2

/-- `DeviceDisconnected::from_raw` (`src/src/input.rs` lines 331-336):
reads the raw buffer as a `SteamInputDeviceDisconnected_t` and copies the
handle field. -/
def DeviceDisconnected.from_raw (raw : SteamInputDeviceDisconnected_t) :
    DeviceDisconnected :=
  { handle := raw.m_ulDisconnectedDeviceHandle }

/-- Native record `sys::SteamInputConfigurationLoaded_t`: all seven fields
are named in the `from_raw` destructuring in `src/src/input.rs` lines
355-363.  `m_ulMappingCreator` is a `CSteamID` (a `u64`). -/
structure SteamInputConfigurationLoaded_t where
  m_unAppID : Nat
  m_ulDeviceHandle : Nat
  m_ulMappingCreator : Nat
  m_unMajorRevision : Nat
  m_unMinorRevision : Nat
  m_bUsesSteamInputAPI : Bool
  m_bUsesGamepadAPI : Bool

/-- `pub struct ConfigurationLoaded` (`src/src/input.rs` lines 341-349);
the commented-out `m_ulMappingCreator` field is absent. -/
structure ConfigurationLoaded where
  app_id : Nat
  handle : Nat
  major_revision : Nat
  minor_revision : Nat
  uses_steam_input_api : Bool
  uses_gamepad_api : Bool
deriving DecidableEq

/-- `ConfigurationLoaded::ID = CALLBACK_BASE_ID + 3` (`src/src/input.rs` line 352). -/
def ConfigurationLoaded.ID : Int := CALLBACK_BASE_ID + 3

/-- `ConfigurationLoaded::from_raw` (`src/src/input.rs` lines 354-372):
destructures the native record, discarding `m_ulMappingCreator` (the `_`
binding), and copies the six remaining fields. -/
def ConfigurationLoaded.from_raw (raw : SteamInputConfigurationLoaded_t) :
    ConfigurationLoaded :=
  { app_id := raw.m_unAppID
    handle := raw.m_ulDeviceHandle
    major_revision := raw.m_unMajorRevision
    minor_revision := raw.m_unMinorRevision
    uses_steam_input_api := raw.m_bUsesSteamInputAPI
    uses_gamepad_api := raw.m_bUsesGamepadAPI }

/-! Theorems settling the claims. -/

/-- Claim C3: `get_input_type_for_handle` maps every known native
device-type value (Steam Controller, generic gamepad, PS3/PS4/PS5,
Xbox 360/One, Apple MFi, Android, Switch JoyCon pair/single, Switch Pro,
mobile touch, Steam Deck) to the matching `InputType` variant, and maps
every other value of the native enumeration (`Unknown`, `Count`,
`MaximumPossibleValue`) to `InputType.Unknown` rather than failing. -/
theorem get_input_type_for_handle_total_mapping :
    get_input_type_for_handle .k_ESteamInputType_SteamController = InputType.SteamController ∧
    get_input_type_for_handle .k_ESteamInputType_GenericGamepad = InputType.GenericGamepad ∧
    get_input_type_for_handle .k_ESteamInputType_PS3Controller = InputType.PS3Controller ∧
    get_input_type_for_handle .k_ESteamInputType_PS4Controller = InputType.PS4Controller ∧
    get_input_type_for_handle .k_ESteamInputType_PS5Controller = InputType.PS5Controller ∧
    get_input_type_for_handle .k_ESteamInputType_XBox360Controller = InputType.XBox360Controller ∧
    get_input_type_for_handle .k_ESteamInputType_XBoxOneController = InputType.XBoxOneController ∧
    get_input_type_for_handle .k_ESteamInputType_AppleMFiController = InputType.AppleMFiController ∧
    get_input_type_for_handle .k_ESteamInputType_AndroidController = InputType.AndroidController ∧
    get_input_type_for_handle .k_ESteamInputType_SwitchJoyConPair = InputType.SwitchJoyConPair ∧
    get_input_type_for_handle .k_ESteamInputType_SwitchJoyConSingle = InputType.SwitchJoyConSingle ∧
    get_input_type_for_handle .k_ESteamInputType_SwitchProController = InputType.SwitchProController ∧
    get_input_type_for_handle .k_ESteamInputType_MobileTouch = InputType.MobileTouch ∧
    get_input_type_for_handle .k_ESteamInputType_SteamDeckController = InputType.SteamDeckController ∧
    get_input_type_for_handle .k_ESteamInputType_Unknown = InputType.Unknown ∧
    get_input_type_for_handle .k_ESteamInputType_Count = InputType.Unknown ∧
    get_input_type_for_handle .k_ESteamInputType_MaximumPossibleValue = InputType.Unknown := by
  decide

/-- Claim C4: `DeviceConnected::from_raw` copies the device-handle field
of the raw `SteamInputDeviceConnected_t` record unchanged, and likewise
`DeviceDisconnected::from_raw` copies its handle field unchanged. -/
theorem from_raw_handle_exact (h1 h2 : Nat) :
    (DeviceConnected.from_raw ⟨h1⟩).handle = h1 ∧
    (DeviceDisconnected.from_raw ⟨h2⟩).handle = h2 :=
  ⟨rfl, rfl⟩

/-- Witness for claim C4 at concrete handle values 42 and 7. -/
theorem from_raw_handle_exact_witness :
    (DeviceConnected.from_raw ⟨42⟩).handle = 42 ∧
    (DeviceDisconnected.from_raw ⟨7⟩).handle = 7 :=
  from_raw_handle_exact 42 7

/-- Claim C5: `ConfigurationLoaded::from_raw` passes `app_id`, `handle`,
`major_revision`, `minor_revision`, `uses_steam_input_api` and
`uses_gamepad_api` through unchanged, and the `m_ulMappingCreator` field
of the native layout neither appears in the result nor affects it (two
raw records differing only in that field decode identically). -/
theorem configuration_loaded_from_raw_fields
    (a h mc mc2 maj mn : Nat) (b1 b2 : Bool) :
    ConfigurationLoaded.from_raw ⟨a, h, mc, maj, mn, b1, b2⟩
      = ⟨a, h, maj, mn, b1, b2⟩ ∧
    ConfigurationLoaded.from_raw ⟨a, h, mc, maj, mn, b1, b2⟩
      = ConfigurationLoaded.from_raw ⟨a, h, mc2, maj, mn, b1, b2⟩ :=
  ⟨rfl, rfl⟩

/-- Witness for claim C5 at concrete field values, with two distinct
creator identifiers (9 and 10) decoding identically. -/
theorem configuration_loaded_from_raw_fields_witness :
    ConfigurationLoaded.from_raw ⟨480, 11, 9, 2, 5, true, false⟩
      = ⟨480, 11, 2, 5, true, false⟩ ∧
    ConfigurationLoaded.from_raw ⟨480, 11, 9, 2, 5, true, false⟩
      = ConfigurationLoaded.from_raw ⟨480, 11, 10, 2, 5, true, false⟩ :=
  configuration_loaded_from_raw_fields 480 11 9 10 2 5 true false

/-- Claim C8: the three callback record types declare identifiers
`CALLBACK_BASE_ID + 1`, `+ 2`, `+ 3` over the base offset 2800, and the
three identifiers are pairwise distinct. -/
theorem callback_ids_distinct :
    CALLBACK_BASE_ID = 2800 ∧
    DeviceConnected.ID = CALLBACK_BASE_ID + 1 ∧
    DeviceDisconnected.ID = CALLBACK_BASE_ID + 2 ∧
    ConfigurationLoaded.ID = CALLBACK_BASE_ID + 3 ∧
    DeviceConnected.ID ≠ DeviceDisconnected.ID ∧
    DeviceConnected.ID ≠ ConfigurationLoaded.ID ∧
    DeviceDisconnected.ID ≠ ConfigurationLoaded.ID := by
  refine ⟨rfl, rfl, rfl, rfl, ?_, ?_, ?_⟩ <;> decide

/-- Claim C2: `get_connected_controllers_slice` on a buffer shorter than
`STEAM_INPUT_MAX_COUNT` fails its `assert!` (panic, modelled `none`)
whatever the native layer would do — the native call is never reached —
and on a buffer of length at least `STEAM_INPUT_MAX_COUNT` it proceeds,
returns exactly the count the native call reports, and the buffer keeps
its length (no write past its end). -/
theorem get_connected_controllers_slice_assert (native : NativeControllers)
    (buf : List Nat) (h : native.handles.length ≤ STEAM_INPUT_MAX_COUNT) :
    (buf.length < STEAM_INPUT_MAX_COUNT →
      ∀ native2 : NativeControllers,
        get_connected_controllers_slice native2 buf = none) ∧
    (STEAM_INPUT_MAX_COUNT ≤ buf.length →
      get_connected_controllers_slice native buf
        = some (native.handles.length,
            native.handles ++ buf.drop native.handles.length) ∧
      (native.handles ++ buf.drop native.handles.length).length = buf.length) := by
  constructor
  · intro hlt native2
    simp only [get_connected_controllers_slice]
    rw [if_neg]
    omega
  · intro hge
    refine ⟨?_, ?_⟩
    · simp only [get_connected_controllers_slice, nativeGetConnectedControllers]
      rw [if_pos hge]
    · simp only [List.length_append, List.length_drop]
      omega

/-- Witness for claim C2 at concrete inputs: one connected controller,
an undersized buffer `[0]` (panic) and a full-size buffer of 16 zeros
(native count 1 returned, buffer length preserved). -/
theorem get_connected_controllers_slice_assert_witness :
    get_connected_controllers_slice ⟨[3]⟩ [0] = none ∧
    (get_connected_controllers_slice ⟨[3]⟩ (List.replicate 16 0)
        = some ((NativeControllers.mk [3]).handles.length,
            (NativeControllers.mk [3]).handles
              ++ (List.replicate 16 0).drop (NativeControllers.mk [3]).handles.length) ∧
      ((NativeControllers.mk [3]).handles
          ++ (List.replicate 16 0).drop (NativeControllers.mk [3]).handles.length).length
        = (List.replicate 16 (0 : Nat)).length) :=
  ⟨(get_connected_controllers_slice_assert ⟨[3]⟩ [0] (by decide)).1 (by decide) ⟨[3]⟩,
   (get_connected_controllers_slice_assert ⟨[3]⟩ (List.replicate 16 0) (by decide)).2
     (by decide)⟩

/-- Claim C1, evaluated at the failing input: with zero connected
controllers (the native call reports count 0), `get_connected_controllers`
still returns a vector of the full length `STEAM_INPUT_MAX_COUNT` = 16 —
`Vec::shrink_to` only lowers capacity and never the length — where the
claim requires length 0. -/
theorem get_connected_controllers_keeps_full_length :
    get_connected_controllers ⟨[]⟩ = List.replicate STEAM_INPUT_MAX_COUNT 0 ∧
    (get_connected_controllers ⟨[]⟩).length = 16 ∧
    (NativeControllers.mk []).handles.length = 0 ∧
    (get_connected_controllers ⟨[]⟩).length ≠ (NativeControllers.mk []).handles.length := by
  refine ⟨by decide, by decide, by decide, by decide⟩

/-- Claim C10: when the native call reports count `q` (writing only the
first `q` buffer entries), every element of the vector returned by
`get_connected_controllers` at an index at least `q` is `0`, the value
the wrapper initialised the buffer with (`vec![0_u64; ..]`); no slot past
the reported count holds stale or uninitialised data.  (The vector has
length `STEAM_INPUT_MAX_COUNT`, so indices range below 16.) -/
theorem get_connected_controllers_padding_zero (native : NativeControllers)
    (h : native.handles.length ≤ STEAM_INPUT_MAX_COUNT) (i : Nat)
    (h1 : native.handles.length ≤ i) (h2 : i < STEAM_INPUT_MAX_COUNT) :
    (get_connected_controllers native)[i]? = some 0 := by
  simp only [get_connected_controllers, get_connected_controllers_slice,
    nativeGetConnectedControllers, vecShrinkTo, List.length_replicate,
    if_pos (le_refl STEAM_INPUT_MAX_COUNT)]
  rw [List.getElem?_append_right h1, List.drop_replicate, List.getElem?_replicate]
  rw [if_pos]
  omega

/-- Witness for claim C10 at a concrete input: two connected controllers
`[5, 7]`; slot 3 of the returned vector is `0`. -/
theorem get_connected_controllers_padding_zero_witness :
    (get_connected_controllers ⟨[5, 7]⟩)[3]? = some 0 :=
  get_connected_controllers_padding_zero ⟨[5, 7]⟩ (by decide) 3 (by decide) (by decide)

/-- Claim C9: under the native contract that the origins call writes at
most `STEAM_INPUT_MAX_ORIGINS` origins and returns their count, both
`get_digital_action_origins` and `get_analog_action_origins` return
exactly the written origins: length equal to the native-reported count,
at most `STEAM_INPUT_MAX_ORIGINS`, and every exposed slot initialised. -/
theorem get_action_origins_length (native : NativeOrigins)
    (h : native.origins.length ≤ STEAM_INPUT_MAX_ORIGINS) :
    get_digital_action_origins native = native.origins.map some ∧
    (get_digital_action_origins native).length = native.origins.length ∧
    (get_digital_action_origins native).length ≤ STEAM_INPUT_MAX_ORIGINS ∧
    get_analog_action_origins native = native.origins.map some := by
  have key : vecSetLen
      (nativeWriteOrigins (vecWithCapacity STEAM_INPUT_MAX_ORIGINS) native.origins)
      native.origins.length = native.origins.map some := by
    simp only [vecSetLen, nativeWriteOrigins, vecWithCapacity]
    rw [List.take_append_of_le_length (by simp)]
    simp
  refine ⟨key, ?_, ?_, key⟩
  · rw [get_digital_action_origins, key]
    simp
  · rw [get_digital_action_origins, key]
    simpa using h

/-- Witness for claim C9 at a concrete input: three origins `[1, 2, 3]`
written by the native call. -/
theorem get_action_origins_length_witness :
    get_digital_action_origins ⟨[1, 2, 3]⟩ = [1, 2, 3].map some ∧
    (get_digital_action_origins ⟨[1, 2, 3]⟩).length
      = (NativeOrigins.mk [1, 2, 3]).origins.length ∧
    (get_digital_action_origins ⟨[1, 2, 3]⟩).length ≤ STEAM_INPUT_MAX_ORIGINS ∧
    get_analog_action_origins ⟨[1, 2, 3]⟩ = [1, 2, 3].map some :=
  get_action_origins_length ⟨[1, 2, 3]⟩ (by decide)

/-- Claim C6: each string-taking operation
(`set_input_action_manifest_file_path`, `get_action_set_handle`,
`get_digital_action_handle`, `get_analog_action_handle`) panics
(`CString::new(..).unwrap()`, modelled `none`) on any input containing a
nul byte, before the native call is reached; on a nul-free input it
forwards the nul-terminated bytes `s ++ [0]` to the native call and
returns the native result. -/
theorem string_ops_nul_check (nm : List Nat → Bool) (ns nd na : List Nat → Nat)
    (s : List Nat) :
    (0 ∈ s →
      set_input_action_manifest_file_path nm s = none ∧
      get_action_set_handle ns s = none ∧
      get_digital_action_handle nd s = none ∧
      get_analog_action_handle na s = none) ∧
    (0 ∉ s →
      set_input_action_manifest_file_path nm s = some (nm (s ++ [0])) ∧
      get_action_set_handle ns s = some (ns (s ++ [0])) ∧
      get_digital_action_handle nd s = some (nd (s ++ [0])) ∧
      get_analog_action_handle na s = some (na (s ++ [0]))) := by
  constructor
  · intro hmem
    simp [set_input_action_manifest_file_path, get_action_set_handle,
      get_digital_action_handle, get_analog_action_handle, CString.new, hmem]
  · intro hmem
    simp [set_input_action_manifest_file_path, get_action_set_handle,
      get_digital_action_handle, get_analog_action_handle, CString.new, hmem]

/-- Witness for claim C6 at concrete inputs: the byte string `[65, 0]`
(embedded nul) makes all four operations panic; the nul-free byte string
`[65]` is forwarded nul-terminated to each native call. -/
theorem string_ops_nul_check_witness :
    (set_input_action_manifest_file_path (fun _ => true) [65, 0] = none ∧
      get_action_set_handle List.length [65, 0] = none ∧
      get_digital_action_handle List.length [65, 0] = none ∧
      get_analog_action_handle List.length [65, 0] = none) ∧
    (set_input_action_manifest_file_path (fun _ => true) [65]
        = some ((fun _ => true) ([65] ++ [0])) ∧
      get_action_set_handle List.length [65] = some (List.length ([65] ++ [0])) ∧
      get_digital_action_handle List.length [65] = some (List.length ([65] ++ [0])) ∧
      get_analog_action_handle List.length [65] = some (List.length ([65] ++ [0]))) :=
  ⟨(string_ops_nul_check (fun _ => true) List.length List.length List.length [65, 0]).1
      (by decide),
   (string_ops_nul_check (fun _ => true) List.length List.length List.length [65]).2
      (by decide)⟩

theorem utf8DecodeStep_pos {l : List Nat} {c n : Nat}
    (h : utf8DecodeStep l = some (c, n)) : 1 ≤ n := by
  match l with
  | [] => simp [utf8DecodeStep] at h
  | b0 :: rest =>
    simp only [utf8DecodeStep] at h
    repeat' split at h
    all_goals simp_all
    all_goals omega

theorem lossyDecodeAux_of_strict (fuel : Nat) :
    ∀ l cs, l.length ≤ fuel → utf8DecodeAux fuel l = some cs →
      lossyDecodeAux fuel l = cs := by
  induction fuel with
  | zero =>
    intro l cs hle hd
    match l with
    | [] =>
      simp only [utf8DecodeAux, Option.some.injEq] at hd
      simp [lossyDecodeAux, hd]
    | b :: bs => simp at hle
  | succ fuel ih =>
    intro l cs hle hd
    match l with
    | [] =>
      simp only [utf8DecodeAux, Option.some.injEq] at hd
      simp [lossyDecodeAux, hd]
    | b :: bs =>
      simp only [utf8DecodeAux] at hd
      simp only [lossyDecodeAux]
      match hstep : utf8DecodeStep (b :: bs) with
      | some (c, n) =>
        rw [hstep] at hd
        simp only [Option.map_eq_some'] at hd
        obtain ⟨cs2, hcs2, rfl⟩ := hd
        show Char.ofNat c :: lossyDecodeAux fuel ((b :: bs).drop n)
          = Char.ofNat c :: cs2
        rw [ih ((b :: bs).drop n) cs2 ?_ hcs2]
        have hn := utf8DecodeStep_pos hstep
        simp only [List.length_cons] at hle
        simp only [List.length_drop, List.length_cons]
        omega
      | none => rw [hstep] at hd; exact absurd hd (by simp)

theorem replacement_mem_lossyDecodeAux (fuel : Nat) :
    ∀ l, l.length ≤ fuel → utf8DecodeAux fuel l = none →
      replacementChar ∈ lossyDecodeAux fuel l := by
  induction fuel with
  | zero =>
    intro l hle hd
    match l with
    | [] => simp [utf8DecodeAux] at hd
    | b :: bs => simp at hle
  | succ fuel ih =>
    intro l hle hd
    match l with
    | [] => simp [utf8DecodeAux] at hd
    | b :: bs =>
      simp only [utf8DecodeAux] at hd
      simp only [lossyDecodeAux]
      match hstep : utf8DecodeStep (b :: bs) with
      | some (c, n) =>
        rw [hstep] at hd
        simp only [Option.map_eq_none'] at hd
        have hdrop : ((b :: bs).drop n).length ≤ fuel := by
          have hn := utf8DecodeStep_pos hstep
          simp only [List.length_cons] at hle
          simp only [List.length_drop, List.length_cons]
          omega
        show replacementChar ∈ Char.ofNat c :: lossyDecodeAux fuel ((b :: bs).drop n)
        exact List.mem_cons_of_mem _ (ih _ hdrop hd)
      | none =>
        show replacementChar
          ∈ replacementChar :: lossyDecodeAux fuel ((b :: bs).drop (utf8ErrLen (b :: bs)))
        exact List.mem_cons_self _ _

/-- Claim C7: `get_string_for_action_origin` and
`get_glyph_for_action_origin` return an owned string by lossy decoding of
whatever byte sequence the native call provides: on well-formed UTF-8 the
result is exactly the strict decoding, and on any malformed sequence the
result contains the replacement character `U+FFFD` instead of an error —
by construction the functions are total and never propagate a decoding
failure. -/
theorem action_origin_strings_lossy (gn sn : Nat → List Nat) (origin : Nat) :
    (∀ cs, utf8Decode (sn origin) = some cs →
      get_string_for_action_origin sn origin = String.mk cs) ∧
    (utf8Decode (sn origin) = none →
      replacementChar ∈ (get_string_for_action_origin sn origin).data) ∧
    (∀ cs, utf8Decode (gn origin) = some cs →
      get_glyph_for_action_origin gn origin = String.mk cs) ∧
    (utf8Decode (gn origin) = none →
      replacementChar ∈ (get_glyph_for_action_origin gn origin).data) := by
  refine ⟨fun cs hd => ?_, fun hd => ?_, fun cs hd => ?_, fun hd => ?_⟩
  · simp only [get_string_for_action_origin, toStringLossy]
    rw [lossyDecodeAux_of_strict _ _ _ (le_refl _) hd]
  · simp only [get_string_for_action_origin, toStringLossy, String.mk]
    exact replacement_mem_lossyDecodeAux _ _ (le_refl _) hd
  · simp only [get_glyph_for_action_origin, toStringLossy]
    rw [lossyDecodeAux_of_strict _ _ _ (le_refl _) hd]
  · simp only [get_glyph_for_action_origin, toStringLossy, String.mk]
    exact replacement_mem_lossyDecodeAux _ _ (le_refl _) hd

/-- Witness for claim C7 at concrete inputs: the native bytes `[72, 105]`
(valid UTF-8 "Hi") decode strictly, and the native bytes `[255]` (never
valid UTF-8) produce a string containing the replacement character. -/
theorem action_origin_strings_lossy_witness :
    get_string_for_action_origin (fun _ => [72, 105]) 0
      = String.mk [Char.ofNat 72, Char.ofNat 105] ∧
    replacementChar ∈ (get_glyph_for_action_origin (fun _ => [255]) 0).data :=
  ⟨(action_origin_strings_lossy (fun _ => [255]) (fun _ => [72, 105]) 0).1
      [Char.ofNat 72, Char.ofNat 105] (by decide),
   (action_origin_strings_lossy (fun _ => [255]) (fun _ => [72, 105]) 0).2.2.2
      (by decide)⟩

end SteamworksInput
